import Mathlib

/-!
Shallow embedding of the error-processing worker route
(`src/app/api/worker/route.ts`) of the repository: the module-level
mutable `memory` store, the pure classifier helpers `detectErrorType`,
`assessSeverity` and `generateSuggestions`, and the `POST` handler with
the lifecycle events it emits.  Timestamps (`new Date()` calls) are
modelled by an explicit clock `t : Nat`, with successive calls reading
`t`, `t+1`, ….  JavaScript objects used as counter maps are modelled as
association lists updated in place (first matching key), exactly as
object key update behaves.
-/

namespace Worker

/-- Boolean substring test on character lists: does `pat` occur as a
contiguous run inside the second list?  Mirrors JavaScript
`String.prototype.includes`. -/
def includesList (pat : List Char) : List Char → Bool
  | [] => pat.isEmpty
  | c :: cs => pat.isPrefixOf (c :: cs) || includesList pat cs

/-- JavaScript `s.includes(pat)`: `pat` occurs as a contiguous substring
of `s`. -/
def includes (s pat : String) : Bool :=
  includesList pat.data s.data

/-- JavaScript `s.toLowerCase()`, modelled character-wise on the
string's character list. -/
def jsToLower (s : String) : String :=
  ⟨s.data.map Char.toLower⟩

/-- JavaScript `s.trim()`: strip whitespace from both ends, modelled on
the string's character list. -/
def jsTrim (s : String) : String :=
  ⟨((s.data.dropWhile Char.isWhitespace).reverse.dropWhile Char.isWhitespace).reverse⟩

/-- JavaScript `s.substring(0, n)`: the first `n` characters of `s`. -/
def jsSubstring0 (s : String) (n : Nat) : String :=
  ⟨s.data.take n⟩

/-- `detectErrorType` from `route.ts`: first case-insensitive keyword
match in the order syntax, type, reference, network, timeout; otherwise
"General Error". -/
def detectErrorType (error : String) : String :=
  let lowerError := jsToLower error
  if includes lowerError "syntax" then "Syntax Error"
  else if includes lowerError "type" then "Type Error"
  else if includes lowerError "reference" then "Reference Error"
  else if includes lowerError "network" then "Network Error"
  else if includes lowerError "timeout" then "Timeout Error"
  else "General Error"

/-- `assessSeverity` from `route.ts`: first case-insensitive keyword
match in the order critical/fatal, error/exception, warning; otherwise
"low". -/
def assessSeverity (error : String) : String :=
  let lowerError := jsToLower error
  if includes lowerError "critical" || includes lowerError "fatal" then "critical"
  else if includes lowerError "error" || includes lowerError "exception" then "high"
  else if includes lowerError "warning" then "medium"
  else "low"

/-- `generateSuggestions` from `route.ts`: two baseline suggestions, then
keyword-triggered pairs pushed for syntax, network and timeout, in that
order. -/
def generateSuggestions (error : String) : List String :=
  let suggestions := ["Review error logs for additional context", "Check recent code changes"]
  let lowerError := jsToLower error
  let suggestions :=
    if includes lowerError "syntax" then
      suggestions ++ ["Validate code syntax", "Check for missing brackets or semicolons"]
    else suggestions
  let suggestions :=
    if includes lowerError "network" then
      suggestions ++ ["Verify network connectivity", "Check API endpoints"]
    else suggestions
  let suggestions :=
    if includes lowerError "timeout" then
      suggestions ++ ["Increase timeout duration", "Optimize query performance"]
    else suggestions
  suggestions

/-- The classification produced at lines 60–65 of `route.ts`
(`workflowResult`). -/
structure ClassificationResult where
  errorType : String
  severity : String
  suggestions : List String
  processedAt : Nat
deriving DecidableEq, Repr

/-- `WorkflowRecord` from `lib/memory-store` as used by `route.ts`
lines 71–75. -/
structure WorkflowRecord where
  id : String
  result : ClassificationResult
  timestamp : Nat
deriving DecidableEq, Repr

/-- The `statistics` sub-object of the memory store.  The two counter
objects are association lists keyed by error type / severity. -/
structure Statistics where
  errorTypes : List (String × Nat)
  severityCount : List (String × Nat)
  averageProcessingTime : Nat
deriving DecidableEq, Repr

/-- `MemoryStore`: the module-level mutable `memory` of `route.ts`. -/
structure MemoryStore where
  totalErrors : Nat
  lastProcessed : Option String
  workflows : List WorkflowRecord
  statistics : Statistics
deriving DecidableEq, Repr

/-- The initial value of `memory` (lines 5–14 of `route.ts`). -/
def initialMemory : MemoryStore :=
  { totalErrors := 0
    lastProcessed := none
    workflows := []
    statistics := { errorTypes := [], severityCount := [], averageProcessingTime := 0 } }

/-- JavaScript object counter update `obj[k] = (obj[k] || 0) + 1` on an
association list: bump the first entry with key `k`, or append `(k, 1)`
if no entry exists. -/
def incrementKey : List (String × Nat) → String → List (String × Nat)
  | [], k => [(k, 1)]
  | (k', v) :: rest, k =>
    if k' == k then (k', v + 1) :: rest else (k', v) :: incrementKey rest k

/-- Sum of all counts held in a counter object. -/
def sumCounts (m : List (String × Nat)) : Nat :=
  (m.map Prod.snd).sum

/-- Modelled from the spec: the `kind` enumeration of `LifecycleEvent`
(`RealtimeEvent.type` comes from `lib/realtime`, which is not under
`src/`; the spec lists the kinds validation, workflow, memory_update,
completed, error, connected). -/
inductive EventType where
  | validation
  | workflow
  | memory_update
  | completed
  | error
  | connected
deriving DecidableEq, Repr

/-- Modelled from the spec: the `status` enumeration of
`LifecycleEvent` (processing, completed, error). -/
inductive EventStatus where
  | processing
  | completed
  | error
deriving DecidableEq, Repr

/-- The stage-specific `data` payload attached to some events: the
memory-update event carries the store, the completion event carries the
classification result. -/
inductive EventData where
  | memoryData (memory : MemoryStore)
  | resultData (result : ClassificationResult)
deriving DecidableEq, Repr

/-- `RealtimeEvent` as constructed in `route.ts` (the shape itself is
declared in `lib/realtime`, outside `src/`; fields follow the spec's
`LifecycleEvent` and the literals in `route.ts`). -/
structure RealtimeEvent where
  id : String
  type : EventType
  message : String
  timestamp : Nat
  status : EventStatus
  data : Option EventData := none
deriving DecidableEq, Repr

/-- The three response shapes `POST` can produce. -/
inductive WorkerResponse where
  | ok (workflow : ClassificationResult) (memory : MemoryStore)
  | badRequest (error : String)
  | serverError (error : String)
deriving DecidableEq, Repr

/-- The validation test of `route.ts` line 35:
`!error || error.trim().length === 0`, with a missing/absent `error`
field modelled by `none` (for a string, `!error` is true exactly for
the empty string). -/
def invalidInput : Option String → Bool
  | none => true
  | some err => err == "" || (jsTrim err).length == 0

/-- The store update block of `route.ts` lines 68–84 (the apply-result
step): increment `totalErrors`, truncate and store the input text,
prepend the new workflow record capped at 10, bump both statistics
counters.  `t` is the clock at which the record's timestamp is taken. -/
def applyResult (eventId : String) (error : String) (workflowResult : ClassificationResult)
    (t : Nat) (m : MemoryStore) : MemoryStore :=
  { totalErrors := m.totalErrors + 1
    lastProcessed := some (jsSubstring0 error 100)
    workflows :=
      ({ id := eventId, result := workflowResult, timestamp := t } :: m.workflows).take 10
    statistics :=
      { errorTypes := incrementKey m.statistics.errorTypes workflowResult.errorType
        severityCount := incrementKey m.statistics.severityCount workflowResult.severity
        averageProcessingTime := m.statistics.averageProcessingTime } }

/-- The `POST` handler of `route.ts`, as a function of the request body
fields `(error, eventId)`, a starting clock `t` (successive `new Date()`
calls read `t`, `t+1`, …) and the current store.  Returns the response,
the new store, and the list of events emitted through
`realtimeEvents.emit`, in emission order. -/
def POST (error : Option String) (eventId : String) (t : Nat) (memory : MemoryStore) :
    WorkerResponse × MemoryStore × List RealtimeEvent :=
  let validationEvent : RealtimeEvent :=
    { id := eventId ++ "_validation"
      type := EventType.validation
      message := "Validating error input..."
      timestamp := t
      status := EventStatus.processing }
  if invalidInput error then
    let errorEvent : RealtimeEvent :=
      { id := eventId ++ "_error"
        type := EventType.validation
        message := "Validation failed: Empty error message"
        timestamp := t + 1
        status := EventStatus.error }
    (WorkerResponse.badRequest "Invalid input", memory, [validationEvent, errorEvent])
  else
    let err := error.getD ""
    let workflowEvent : RealtimeEvent :=
      { id := eventId ++ "_workflow"
        type := EventType.workflow
        message := "Calling error processing workflow..."
        timestamp := t + 1
        status := EventStatus.processing }
    let workflowResult : ClassificationResult :=
      { errorType := detectErrorType err
        severity := assessSeverity err
        suggestions := generateSuggestions err
        processedAt := t + 2 }
    let newMemory := applyResult eventId err workflowResult (t + 3) memory
    let memoryEvent : RealtimeEvent :=
      { id := eventId ++ "_memory"
        type := EventType.memory_update
        message := "Memory store updated"
        timestamp := t + 4
        status := EventStatus.completed
        data := some (EventData.memoryData newMemory) }
    let completedEvent : RealtimeEvent :=
      { id := eventId
        type := EventType.completed
        message := "Error processed successfully: " ++ workflowResult.errorType
        timestamp := t + 5
        status := EventStatus.completed
        data := some (EventData.resultData workflowResult) }
    (WorkerResponse.ok workflowResult newMemory, newMemory,
      [validationEvent, workflowEvent, memoryEvent, completedEvent])

/-- Run a sequence of `POST` requests (body fields and starting clock
for each) against a store, threading the store through. -/
def runPOSTs : List (Option String × String × Nat) → MemoryStore → MemoryStore
  | [], m => m
  | (e, i, t) :: rest, m => runPOSTs rest (POST e i t m).2.1

/-- The workflow record a successful `POST` with input `error`,
identifier `eventId` and starting clock `t` prepends to the store. -/
def workflowRecordOf (error eventId : String) (t : Nat) : WorkflowRecord :=
  { id := eventId
    result :=
      { errorType := detectErrorType error
        severity := assessSeverity error
        suggestions := generateSuggestions error
        processedAt := t + 2 }
    timestamp := t + 3 }

/-- The workflow records created by the successful requests of a
sequence, in request order. -/
def successfulRecords : List (Option String × String × Nat) → List WorkflowRecord
  | [] => []
  | (e, i, t) :: rest =>
    if invalidInput e then successfulRecords rest
    else workflowRecordOf (e.getD "") i t :: successfulRecords rest

/-- Run a sequence of apply-result steps (one per in-flight request, in
some serial order) against a store. -/
def runApplies : List (String × String × ClassificationResult × Nat) → MemoryStore → MemoryStore
  | [], m => m
  | (i, e, r, t) :: rest, m => runApplies rest (applyResult i e r t m)

/-- Cross-field consistency of the store: `totalErrors` equals the sum
of the `errorTypes` counts and the sum of the `severityCount` counts. -/
def Consistent (m : MemoryStore) : Prop :=
  m.totalErrors = sumCounts m.statistics.errorTypes ∧
    m.totalErrors = sumCounts m.statistics.severityCount

/-- Bumping one key raises the total count by exactly one, whether the
key was present or not. -/
theorem sumCounts_incrementKey (m : List (String × Nat)) (k : String) :
    sumCounts (incrementKey m k) = sumCounts m + 1 := by
  induction m with
  | nil => simp [incrementKey, sumCounts]
  | cons p rest ih =>
    obtain ⟨k', v⟩ := p
    by_cases h : (k' == k)
    · simp [incrementKey, h, sumCounts]
      omega
    · simp only [incrementKey, h, if_false, Bool.false_eq_true]
      simp [sumCounts] at ih ⊢
      omega

/-- One apply-result step preserves the cross-field consistency of the
store. -/
theorem applyResult_consistent (eventId error : String) (r : ClassificationResult) (t : Nat)
    (m : MemoryStore) (h : Consistent m) : Consistent (applyResult eventId error r t m) := by
  obtain ⟨h1, h2⟩ := h
  refine ⟨?_, ?_⟩
  · simp [applyResult, sumCounts_incrementKey, h1]
  · simp [applyResult, sumCounts_incrementKey, h2]

/-- An invalid request leaves the store untouched. -/
theorem POST_store_invalid (e : Option String) (i : String) (t : Nat) (m : MemoryStore)
    (h : invalidInput e = true) : (POST e i t m).2.1 = m := by
  simp [POST, h]

/-- A valid request updates the store with exactly one apply-result
step, whose workflow record is `workflowRecordOf`. -/
theorem POST_store_valid (e : Option String) (i : String) (t : Nat) (m : MemoryStore)
    (h : invalidInput e = false) :
    (POST e i t m).2.1 =
      applyResult i (e.getD "") (workflowRecordOf (e.getD "") i t).result (t + 3) m := by
  simp [POST, h, workflowRecordOf]

/-- Every single `POST` run preserves consistency of the store. -/
theorem POST_consistent (e : Option String) (i : String) (t : Nat) (m : MemoryStore)
    (h : Consistent m) : Consistent (POST e i t m).2.1 := by
  by_cases hv : invalidInput e
  · rw [POST_store_invalid e i t m hv]; exact h
  · rw [POST_store_valid e i t m (by simpa using hv)]
    exact applyResult_consistent _ _ _ _ m h

/-- Running any request sequence preserves consistency of the store. -/
theorem runPOSTs_consistent (reqs : List (Option String × String × Nat)) (m : MemoryStore)
    (h : Consistent m) : Consistent (runPOSTs reqs m) := by
  induction reqs generalizing m with
  | nil => exact h
  | cons req rest ih =>
    obtain ⟨e, i, t⟩ := req
    exact ih _ (POST_consistent e i t m h)

/-- Truncating the tail before an append does not change a truncated
append. -/
theorem take_append_take {α : Type _} (a l : List α) (n : Nat) :
    (a ++ l.take n).take n = (a ++ l).take n := by
  rw [List.take_append_eq_append_take, List.take_append_eq_append_take, List.take_take,
    Nat.min_eq_left (Nat.sub_le n a.length)]

/-- After any request sequence, the workflows list is the reversed list
of the records of the successful requests, stacked onto whatever was
there before, truncated to 10 (for a starting store already within the
cap). -/
theorem runPOSTs_workflows (reqs : List (Option String × String × Nat)) (m : MemoryStore)
    (hm : m.workflows.length ≤ 10) :
    (runPOSTs reqs m).workflows = ((successfulRecords reqs).reverse ++ m.workflows).take 10 := by
  induction reqs generalizing m with
  | nil => simp [runPOSTs, successfulRecords, List.take_of_length_le hm]
  | cons req rest ih =>
    obtain ⟨e, i, t⟩ := req
    by_cases hv : invalidInput e
    · rw [runPOSTs, POST_store_invalid e i t m hv, ih m hm, successfulRecords, if_pos hv]
    · have hv' : invalidInput e = false := by simpa using hv
      have hlen : (applyResult i (e.getD "")
          (workflowRecordOf (e.getD "") i t).result (t + 3) m).workflows.length ≤ 10 := by
        simp [applyResult, List.length_take]
      rw [runPOSTs, POST_store_valid e i t m hv', ih _ hlen,
        successfulRecords, if_neg hv, List.reverse_cons, List.append_assoc,
        List.singleton_append]
      show ((successfulRecords rest).reverse
        ++ ((workflowRecordOf (e.getD "") i t :: m.workflows).take 10)).take 10 = _
      rw [take_append_take]

/-- The pair of type and status of each event in a list, in order. -/
def eventKinds (evs : List RealtimeEvent) : List (EventType × EventStatus) :=
  evs.map fun ev => (ev.type, ev.status)

/-- C1: starting from the initial empty store, after every sequence of
processed requests (in particular every sequence of successfully
processed ones), `totalErrors` equals the sum of all counts in
`statistics.errorTypes` and equals the sum of all counts in
`statistics.severityCount`. -/
theorem c1_store_counts_consistent (reqs : List (Option String × String × Nat)) :
    (runPOSTs reqs initialMemory).totalErrors
        = sumCounts (runPOSTs reqs initialMemory).statistics.errorTypes ∧
      (runPOSTs reqs initialMemory).totalErrors
        = sumCounts (runPOSTs reqs initialMemory).statistics.severityCount :=
  runPOSTs_consistent reqs initialMemory ⟨rfl, rfl⟩

/-- C2: starting from the initial empty store, after every sequence of
processed requests the workflows list never exceeds length 10, and it
equals the records of the successful requests, newest first, truncated
to the 10 most recent (the oldest evicted on overflow). -/
theorem c2_workflows_capped_newest_first (reqs : List (Option String × String × Nat)) :
    (runPOSTs reqs initialMemory).workflows.length ≤ 10 ∧
      (runPOSTs reqs initialMemory).workflows = ((successfulRecords reqs).reverse).take 10 := by
  have h := runPOSTs_workflows reqs initialMemory (by simp [initialMemory])
  rw [show initialMemory.workflows = [] from rfl, List.append_nil] at h
  exact ⟨by rw [h]; simp [List.length_take], h⟩

/-- C3: for every request whose `error` field is missing, empty or
all-whitespace, `POST` returns the "Invalid input" failure, leaves the
store unchanged, and emits exactly the started-validation event followed
by the error-status validation event — nothing further. -/
theorem c3_invalid_input_rejected (e : Option String) (i : String) (t : Nat) (m : MemoryStore)
    (h : invalidInput e = true) :
    POST e i t m =
      (WorkerResponse.badRequest "Invalid input", m,
        [{ id := i ++ "_validation"
           type := EventType.validation
           message := "Validating error input..."
           timestamp := t
           status := EventStatus.processing
           data := none },
         { id := i ++ "_error"
           type := EventType.validation
           message := "Validation failed: Empty error message"
           timestamp := t + 1
           status := EventStatus.error
           data := none }]) := by
  simp [POST, h]

/-- Witness for C3 at the concrete all-whitespace input `"   "`. -/
theorem c3_invalid_input_rejected_witness :
    POST (some "   ") "req" 7 initialMemory =
      (WorkerResponse.badRequest "Invalid input", initialMemory,
        [{ id := "req_validation"
           type := EventType.validation
           message := "Validating error input..."
           timestamp := 7
           status := EventStatus.processing
           data := none },
         { id := "req_error"
           type := EventType.validation
           message := "Validation failed: Empty error message"
           timestamp := 8
           status := EventStatus.error
           data := none }]) :=
  c3_invalid_input_rejected (some "   ") "req" 7 initialMemory (by decide)

/-- C4: a successfully processed request emits, in order, a validation
event (processing), a workflow event (processing), a memory_update
event (completed) and a completed event (completed); an invalid request
emits the validation (processing) event and then an error-status
validation event, short-circuiting the rest. -/
theorem c4_event_order (e : Option String) (i : String) (t : Nat) (m : MemoryStore) :
    (invalidInput e = false →
      eventKinds (POST e i t m).2.2 =
        [(EventType.validation, EventStatus.processing),
         (EventType.workflow, EventStatus.processing),
         (EventType.memory_update, EventStatus.completed),
         (EventType.completed, EventStatus.completed)]) ∧
    (invalidInput e = true →
      eventKinds (POST e i t m).2.2 =
        [(EventType.validation, EventStatus.processing),
         (EventType.validation, EventStatus.error)]) := by
  constructor <;> intro h <;> simp [POST, h, eventKinds]

/-- Witness for C4 at the concrete valid input `"network down"`. -/
theorem c4_event_order_witness :
    eventKinds (POST (some "network down") "req" 0 initialMemory).2.2 =
      [(EventType.validation, EventStatus.processing),
       (EventType.workflow, EventStatus.processing),
       (EventType.memory_update, EventStatus.completed),
       (EventType.completed, EventStatus.completed)] :=
  (c4_event_order (some "network down") "req" 0 initialMemory).1 (by decide)

/-- C5: the error type is the first case-insensitive substring match in
the fixed order syntax, type, reference, network, timeout, and
"General Error" when no keyword occurs. -/
theorem c5_detectErrorType_priority (s : String) :
    (includes (jsToLower s) "syntax" = true → detectErrorType s = "Syntax Error") ∧
    (includes (jsToLower s) "syntax" = false →
      includes (jsToLower s) "type" = true → detectErrorType s = "Type Error") ∧
    (includes (jsToLower s) "syntax" = false → includes (jsToLower s) "type" = false →
      includes (jsToLower s) "reference" = true → detectErrorType s = "Reference Error") ∧
    (includes (jsToLower s) "syntax" = false → includes (jsToLower s) "type" = false →
      includes (jsToLower s) "reference" = false →
      includes (jsToLower s) "network" = true → detectErrorType s = "Network Error") ∧
    (includes (jsToLower s) "syntax" = false → includes (jsToLower s) "type" = false →
      includes (jsToLower s) "reference" = false → includes (jsToLower s) "network" = false →
      includes (jsToLower s) "timeout" = true → detectErrorType s = "Timeout Error") ∧
    (includes (jsToLower s) "syntax" = false → includes (jsToLower s) "type" = false →
      includes (jsToLower s) "reference" = false → includes (jsToLower s) "network" = false →
      includes (jsToLower s) "timeout" = false → detectErrorType s = "General Error") := by
  refine ⟨?_, ?_, ?_, ?_, ?_, ?_⟩ <;> intros <;> simp_all [detectErrorType]

/-- Witness for C5: a string matching no keyword classifies as
"General Error", and one whose first match is "type" classifies as
"Type Error". -/
theorem c5_detectErrorType_priority_witness :
    detectErrorType "broken pipe" = "General Error" ∧
      detectErrorType "Type mismatch" = "Type Error" :=
  ⟨(c5_detectErrorType_priority "broken pipe").2.2.2.2.2
      (by decide) (by decide) (by decide) (by decide) (by decide),
    (c5_detectErrorType_priority "Type mismatch").2.1 (by decide) (by decide)⟩

/-- C6: the severity is critical when "critical" or "fatal" occurs
(case-insensitively, regardless of the other keywords), otherwise high
when "error" or "exception" occurs, otherwise medium when "warning"
occurs, otherwise low. -/
theorem c6_assessSeverity_priority (s : String) :
    ((includes (jsToLower s) "critical" = true ∨ includes (jsToLower s) "fatal" = true) →
      assessSeverity s = "critical") ∧
    (includes (jsToLower s) "critical" = false → includes (jsToLower s) "fatal" = false →
      (includes (jsToLower s) "error" = true ∨ includes (jsToLower s) "exception" = true) →
      assessSeverity s = "high") ∧
    (includes (jsToLower s) "critical" = false → includes (jsToLower s) "fatal" = false →
      includes (jsToLower s) "error" = false → includes (jsToLower s) "exception" = false →
      includes (jsToLower s) "warning" = true → assessSeverity s = "medium") ∧
    (includes (jsToLower s) "critical" = false → includes (jsToLower s) "fatal" = false →
      includes (jsToLower s) "error" = false → includes (jsToLower s) "exception" = false →
      includes (jsToLower s) "warning" = false → assessSeverity s = "low") := by
  refine ⟨?_, ?_, ?_, ?_⟩
  · rintro (h | h) <;> simp [assessSeverity, h]
  · rintro h1 h2 (h | h) <;> simp [assessSeverity, h1, h2, h]
  · intros; simp_all [assessSeverity]
  · intros; simp_all [assessSeverity]

/-- Witness for C6 at `"Fatal error warning"`: both "error" and
"warning" occur, yet "fatal" wins and the severity is critical. -/
theorem c6_assessSeverity_priority_witness :
    includes (jsToLower "Fatal error warning") "error" = true ∧
      includes (jsToLower "Fatal error warning") "warning" = true ∧
      assessSeverity "Fatal error warning" = "critical" :=
  ⟨by decide, by decide,
    (c6_assessSeverity_priority "Fatal error warning").1 (Or.inr (by decide))⟩

/-- C7: the suggestions are the two baseline entries, then the
syntax-specific pair when "syntax" occurs, then the network-specific
pair when "network" occurs, then the timeout-specific pair when
"timeout" occurs, appended in that order with nothing else and no
deduplication. -/
theorem c7_suggestions_structure (s : String) :
    generateSuggestions s =
      ["Review error logs for additional context", "Check recent code changes"] ++
        (if includes (jsToLower s) "syntax" then
          ["Validate code syntax", "Check for missing brackets or semicolons"] else []) ++
        (if includes (jsToLower s) "network" then
          ["Verify network connectivity", "Check API endpoints"] else []) ++
        (if includes (jsToLower s) "timeout" then
          ["Increase timeout duration", "Optimize query performance"] else []) := by
  by_cases h1 : includes (jsToLower s) "syntax" <;>
    by_cases h2 : includes (jsToLower s) "network" <;>
      by_cases h3 : includes (jsToLower s) "timeout" <;>
        simp [generateSuggestions, h1, h2, h3]

/-- Appending two different strings to the same string gives different
strings. -/
theorem string_append_right_ne (a : String) {s1 s2 : String} (h : s1 ≠ s2) :
    a ++ s1 ≠ a ++ s2 := by
  intro hc
  apply h
  apply String.ext
  have hd : (a ++ s1).data = (a ++ s2).data := by rw [hc]
  rwa [String.data_append, String.data_append, List.append_cancel_left_eq] at hd

/-- Appending a nonempty string changes a string. -/
theorem string_append_ne_self (a s : String) (h : s.length ≠ 0) : a ++ s ≠ a := by
  intro hc
  have hl := congrArg String.length hc
  rw [String.length_append] at hl
  omega

/-- C8: every event a request emits carries an id that is the
caller-supplied identifier plus a stage-specific suffix (the suffix of
the terminal completed event being empty), and within one request all
emitted event ids are distinct. -/
theorem c8_event_ids_distinct (e : Option String) (i : String) (t : Nat) (m : MemoryStore) :
    (∀ ev ∈ (POST e i t m).2.2,
      ∃ suffix ∈ (["_validation", "_error", "_workflow", "_memory", ""] : List String),
        ev.id = i ++ suffix) ∧
    ((POST e i t m).2.2.map RealtimeEvent.id).Nodup := by
  by_cases h : invalidInput e
  · constructor
    · intro ev hev
      simp only [POST, h, if_true, List.mem_cons, List.mem_singleton,
        List.not_mem_nil] at hev
      rcases hev with rfl | rfl | hfalse
      · exact ⟨"_validation", by simp, rfl⟩
      · exact ⟨"_error", by simp, rfl⟩
      · cases hfalse
    · have h1 : i ++ "_validation" ≠ i ++ "_error" := string_append_right_ne i (by decide)
      simp [POST, h, h1]
  · have h' : invalidInput e = false := by simpa using h
    constructor
    · intro ev hev
      simp only [POST, h', if_false, Bool.false_eq_true, List.mem_cons,
        List.not_mem_nil] at hev
      rcases hev with rfl | rfl | rfl | rfl | hfalse
      · exact ⟨"_validation", by simp, rfl⟩
      · exact ⟨"_workflow", by simp, rfl⟩
      · exact ⟨"_memory", by simp, rfl⟩
      · exact ⟨"", by simp, (String.append_empty i).symm⟩
      · cases hfalse
    · have h1 : i ++ "_validation" ≠ i ++ "_workflow" := string_append_right_ne i (by decide)
      have h2 : i ++ "_validation" ≠ i ++ "_memory" := string_append_right_ne i (by decide)
      have h3 : i ++ "_validation" ≠ i := string_append_ne_self i "_validation" (by decide)
      have h4 : i ++ "_workflow" ≠ i ++ "_memory" := string_append_right_ne i (by decide)
      have h5 : i ++ "_workflow" ≠ i := string_append_ne_self i "_workflow" (by decide)
      have h6 : i ++ "_memory" ≠ i := string_append_ne_self i "_memory" (by decide)
      simp [POST, h', h1, h2, h3, h4, h5, h6]

/-- Witness for C8 at a concrete valid request. -/
theorem c8_event_ids_distinct_witness :
    (∀ ev ∈ (POST (some "boom") "req" 0 initialMemory).2.2,
      ∃ suffix ∈ (["_validation", "_error", "_workflow", "_memory", ""] : List String),
        ev.id = "req" ++ suffix) ∧
    ((POST (some "boom") "req" 0 initialMemory).2.2.map RealtimeEvent.id).Nodup :=
  c8_event_ids_distinct (some "boom") "req" 0 initialMemory

/-- C9: each in-pipeline store mutation (lines 68–84) is a single
synchronous block with no suspension point inside, so N concurrent
in-flight requests perform their apply-result steps in some serial
order; for every serial order of N apply-result steps, `totalErrors`
and both statistics sums grow by exactly N — no lost, double-counted or
skipped increments. -/
theorem c9_applies_serialize (ops : List (String × String × ClassificationResult × Nat))
    (m : MemoryStore) :
    (runApplies ops m).totalErrors = m.totalErrors + ops.length ∧
      sumCounts (runApplies ops m).statistics.errorTypes
          = sumCounts m.statistics.errorTypes + ops.length ∧
        sumCounts (runApplies ops m).statistics.severityCount
          = sumCounts m.statistics.severityCount + ops.length := by
  induction ops generalizing m with
  | nil => simp [runApplies]
  | cons op rest ih =>
    obtain ⟨i, e, r, t⟩ := op
    have h := ih (applyResult i e r t m)
    simp only [runApplies, List.length_cons]
    refine ⟨?_, ?_, ?_⟩
    · rw [h.1]
      show m.totalErrors + 1 + rest.length = m.totalErrors + (rest.length + 1)
      omega
    · rw [h.2.1]
      show sumCounts (incrementKey m.statistics.errorTypes r.errorType) + rest.length = _
      rw [sumCounts_incrementKey]
      omega
    · rw [h.2.2]
      show sumCounts (incrementKey m.statistics.severityCount r.severity) + rest.length = _
      rw [sumCounts_incrementKey]
      omega

/-- C10: two successfully processed requests sharing one `eventId` are
both counted — `totalErrors` grows by two — and the workflows list
gains two distinct records whose `id` fields are both that `eventId`,
so workflow record ids in the store are not unique. -/
theorem c10_no_dedup_by_eventId (e1 e2 : Option String) (i : String) (t1 t2 : Nat)
    (m : MemoryStore) (h1 : invalidInput e1 = false) (h2 : invalidInput e2 = false)
    (ht : t1 ≠ t2) :
    ((POST e2 i t2 (POST e1 i t1 m).2.1).2.1).totalErrors = m.totalErrors + 2 ∧
      ∃ r2 r1 rest,
        ((POST e2 i t2 (POST e1 i t1 m).2.1).2.1).workflows = r2 :: r1 :: rest ∧
          r2.id = i ∧ r1.id = i ∧ r1 ≠ r2 := by
  rw [POST_store_valid e1 i t1 m h1, POST_store_valid e2 i t2 _ h2]
  constructor
  · simp [applyResult]
  · refine ⟨workflowRecordOf (e2.getD "") i t2, workflowRecordOf (e1.getD "") i t1,
      (m.workflows.take 8), ?_, rfl, rfl, ?_⟩
    · show (workflowRecordOf (e2.getD "") i t2
          :: (workflowRecordOf (e1.getD "") i t1 :: m.workflows).take 10).take 10 = _
      simp [List.take_succ_cons, List.take_take]
    · intro hc
      have := congrArg WorkflowRecord.timestamp hc
      simp [workflowRecordOf] at this
      omega

/-- Witness for C10: two valid requests with the same identifier
"req", at clocks 0 and 6, against the initial store. -/
theorem c10_no_dedup_by_eventId_witness :
    ((POST (some "timeout two") "req" 6
        (POST (some "syntax one") "req" 0 initialMemory).2.1).2.1).totalErrors
        = initialMemory.totalErrors + 2 ∧
      ∃ r2 r1 rest,
        ((POST (some "timeout two") "req" 6
            (POST (some "syntax one") "req" 0 initialMemory).2.1).2.1).workflows
            = r2 :: r1 :: rest ∧
          r2.id = "req" ∧ r1.id = "req" ∧ r1 ≠ r2 :=
  c10_no_dedup_by_eventId (some "syntax one") (some "timeout two") "req" 0 6 initialMemory
    (by decide) (by decide) (by decide)

end Worker
